import Mathlib

/-!
Shallow embedding of `src/rainshocksimulator.py` (class `RainShockSimulator`).

Python floats are modelled as exact rationals (ℚ).  `random.uniform a b`
is modelled as `a + (b - a) * t` for a unit draw `t` supplied as an
explicit input (this is CPython's definition of `uniform`);
`random.choices(population, weights)` is modelled after CPython's
implementation (cumulative weights, then right-bisection at
`random() * total`), including the `ValueError` it raises when the weight
total is not positive.  The `random.random()` display draw, the decay-step
counts `int(dt * 20)` computed from wall-clock time, and the
`datetime.now()` timestamps are likewise threaded through as explicit
inputs, so every operation is a pure function of the simulator state and
its environment inputs.
-/

/-- Errors the Python runtime can raise on the code paths modelled here.
`valueError` is CPython's `ValueError` from `random.choices` (weight total
not positive, or mismatched lengths); `indexError` is the `IndexError`
from indexing into an empty population.  `configurationError` models the
spec's `ConfigurationError` class, which does not exist anywhere in the
source; it is included only so that the spec's error-handling claim can be
stated and compared against what the code actually does. -/
inductive PyError where
  | valueError
  | indexError
  | configurationError
deriving DecidableEq

/-- CPython `random.uniform a b = a + (b - a) * random()`, with the unit
draw `t` made explicit. -/
def uniform (a b t : ℚ) : ℚ := a + (b - a) * t

/-- Cumulative sums, as built by `itertools.accumulate` inside
`random.choices`. -/
def cumWeights : List ℚ → List ℚ
  | [] => []
  | w :: ws => w :: (cumWeights ws).map (fun c => w + c)

/-- How many entries of the list are `≤ x`. -/
def countLe (x : ℚ) : List ℚ → Nat
  | [] => 0
  | y :: ys => (if y ≤ x then 1 else 0) + countLe x ys

/-- `bisect.bisect(a, x, 0, hi)` (right bisection bounded by `hi`): on the
sorted cumulative-weight lists arising here it returns the number of
entries `≤ x` among the first `hi` elements, which is exactly CPython's
insertion point. -/
def bisect_right (a : List ℚ) (x : ℚ) (hi : Nat) : Nat :=
  countLe x (a.take hi)

/-- CPython `random.choices(population, weights=weights)[0]`, with the
unit draw `r` explicit: `ValueError` when the lengths mismatch or the
weight total is not positive, `IndexError` on an empty population, and
otherwise `population[bisect(cum_weights, r * total, 0, n - 1)]`. -/
def choices (population : List α) (weights : List ℚ) (r : ℚ) : Except PyError α :=
  if population.length ≠ weights.length then .error .valueError
  else
    match population with
    | [] => .error .indexError
    | p :: ps =>
      if weights.sum ≤ 0 then .error .valueError
      else .ok ((p :: ps).getD (bisect_right (cumWeights weights) (r * weights.sum) ps.length) p)

/-- One row of the `mist_types` / `shock_types` tables. -/
structure EventSpec where
  weight : ℚ
  intensity_range : ℚ × ℚ
  name : String
deriving DecidableEq

/-- The dict returned by `generate_mist` / `generate_shock` (and built
inline for the relief events of `experience_clearing`). -/
structure Event where
  type : String
  name : String
  intensity : ℚ
  chaos : ℚ
deriving DecidableEq

/-- One entry of `self.shocks`, exactly as appended by `apply_event`. -/
structure LoggedEvent where
  timestamp : Nat
  type : String
  name : String
  intensity : ℚ
  chaos_factor : ℚ
  state_before : ℚ
  state_after : ℚ
  is_mist : Bool
deriving DecidableEq

/-- The fields of a `RainShockSimulator` instance (Python dicts preserve
insertion order, so the two tables are association lists in source
order). -/
structure SimState where
  mist_types : List (String × EventSpec)
  shock_types : List (String × EventSpec)
  mist_rate : ℚ
  mist_unpredictability : ℚ
  drop_rate : ℚ
  unpredictability : ℚ
  shock_threshold : ℚ
  thunder_count : Nat
  max_thunder : Nat
  baseline_state : ℚ
  current_state : ℚ
  shock_decay : ℚ
  mist_decay : ℚ
  shock_accumulation : ℚ
  shocks : List LoggedEvent
  total_drops : Nat
  total_mist : Nat
deriving DecidableEq

/-- `RainShockSimulator.__init__`. -/
def init : SimState :=
  { mist_types := [
      ("soft_veil", { weight := 0.50, intensity_range := (0.001, 0.008), name := "soft veil" }),
      ("cool_breath", { weight := 0.35, intensity_range := (0.008, 0.015), name := "cool breath" }),
      ("dew_kiss", { weight := 0.15, intensity_range := (0.015, 0.025), name := "dew kiss" })],
    shock_types := [
      ("gentle_tap", { weight := 0.50, intensity_range := (0.02, 0.05), name := "gentle tap" }),
      ("sharp_hit", { weight := 0.32, intensity_range := (0.05, 0.12), name := "sharp HIT" }),
      ("cold_spike", { weight := 0.15, intensity_range := (0.12, 0.25), name := "COLD spike" }),
      ("quick_rumble", { weight := 0.02, intensity_range := (0.15, 0.28), name := "⚡ quick rumble" }),
      ("deep_roll", { weight := 0.01, intensity_range := (0.25, 0.40), name := "🌩️ deep roll" })],
    mist_rate := 2.5,
    mist_unpredictability := 0.15,
    drop_rate := 0.5,
    unpredictability := 0.5,
    shock_threshold := 0.02,
    thunder_count := 0,
    max_thunder := 2,
    baseline_state := 1.0,
    current_state := 1.0,
    shock_decay := 0.95,
    mist_decay := 0.98,
    shock_accumulation := 0.0,
    shocks := [],
    total_drops := 0,
    total_mist := 0 }

/-- The membership test `shock_type in ["quick_rumble", "deep_roll"]`. -/
def isThunderKey (k : String) : Bool :=
  k == "quick_rumble" || k == "deep_roll"

/-- Lines 84-90 of `generate_shock`: once the thunder quota is reached the
two thunder keys are filtered out of the table. -/
def shockAvailable (s : SimState) : List (String × EventSpec) :=
  if s.max_thunder ≤ s.thunder_count then
    s.shock_types.filter (fun kv => ! isThunderKey kv.1)
  else s.shock_types

/-- `generate_mist`: weighted category choice, uniform intensity in the
category's range, multiplied by `1 + uniform(-mist_unpredictability,
mist_unpredictability)`.  `r`, `t`, `u` are the three unit draws. -/
def generate_mist (s : SimState) (r t u : ℚ) : Except PyError Event :=
  (choices s.mist_types (s.mist_types.map fun kv => kv.2.weight) r).map fun mist =>
    let chaos_factor := 1 + uniform (-s.mist_unpredictability) s.mist_unpredictability u
    { type := mist.1, name := mist.2.name,
      intensity := uniform mist.2.intensity_range.1 mist.2.intensity_range.2 t * chaos_factor,
      chaos := chaos_factor }

/-- `generate_shock`: weighted choice over the available (possibly
thunder-filtered) table, incrementing `thunder_count` when a thunder key
is drawn; uniform intensity in the chosen range, multiplied by
`1 + uniform(-unpredictability, unpredictability * 1.5)`. -/
def generate_shock (s : SimState) (r t u : ℚ) : Except PyError (Event × SimState) :=
  (choices (shockAvailable s) ((shockAvailable s).map fun kv => kv.2.weight) r).map fun shock =>
    let s' := if isThunderKey shock.1 then
        { s with thunder_count := s.thunder_count + 1 } else s
    let chaos_factor := 1 + uniform (-s.unpredictability) (s.unpredictability * 1.5) u
    ({ type := shock.1, name := shock.2.name,
       intensity := uniform shock.2.intensity_range.1 shock.2.intensity_range.2 t * chaos_factor,
       chaos := chaos_factor }, s')

/-- `apply_event`: add the intensity to `current_state` and
`shock_accumulation`, append one log entry snapshotting the state before
and after, and return `abs(intensity) >= shock_threshold`.  The
`datetime.now()` timestamp is the explicit input `now`. -/
def apply_event (s : SimState) (event : Event) (is_mist : Bool) (now : Nat) : SimState × Bool :=
  let displacement := event.intensity
  let state_before := s.current_state
  ({ s with
      current_state := s.current_state + displacement,
      shock_accumulation := s.shock_accumulation + displacement,
      shocks := s.shocks ++ [{
        timestamp := now, type := event.type, name := event.name,
        intensity := event.intensity, chaos_factor := event.chaos,
        state_before := state_before, state_after := s.current_state + displacement,
        is_mist := is_mist }] },
   if s.shock_threshold ≤ |event.intensity| then true else false)

/-- `decay_state`: one exponential pull toward baseline, applied only when
the state exceeds the baseline. -/
def decay_state (s : SimState) (mist_mode : Bool) : SimState :=
  if s.baseline_state < s.current_state then
    let decay_rate := if mist_mode then s.mist_decay else s.shock_decay
    { s with current_state :=
        (s.current_state - s.baseline_state) * decay_rate + s.baseline_state }
  else s

/-- The `for _ in range(int(time_since_last * 20)): self.decay_state(...)`
loops: `n` decay steps, where `n` is the elapsed-time-derived count. -/
def decaySteps : SimState → Nat → Bool → SimState
  | s, 0, _ => s
  | s, n + 1, mist_mode => decaySteps (decay_state s mist_mode) n mist_mode

/-- One iteration of the `experience_mist` loop body: `n` decay steps in
mist mode, sample a mist event, bump `total_mist`, apply the event, and
display it only when the draw `d` (from `random.random()`) is below 0.3.
The returned `Bool` is whether the event was displayed. -/
def stepMist (s : SimState) (n : Nat) (r t u d : ℚ) (now : Nat) :
    Except PyError (SimState × Bool) :=
  let s1 := decaySteps s n true
  (generate_mist s1 r t u).map fun mist =>
    let s2 := { s1 with total_mist := s1.total_mist + 1 }
    ((apply_event s2 mist true now).1, if d < 0.3 then true else false)

/-- One iteration of the `experience_rain` loop body: `n` decay steps in
storm mode, sample a shock (updating the thunder count), bump
`total_drops`, apply the event; the returned `Bool` (display gate) is
exactly the value returned by `apply_event`. -/
def stepStorm (s : SimState) (n : Nat) (r t u : ℚ) (now : Nat) :
    Except PyError (SimState × Bool) :=
  let s1 := decaySteps s n false
  (generate_shock s1 r t u).map fun es =>
    let s2 := { es.2 with total_drops := es.2.total_drops + 1 }
    apply_event s2 es.1 false now

/-- Environment inputs for one mist-loop iteration. -/
structure MistIn where
  n : Nat
  r : ℚ
  t : ℚ
  u : ℚ
  d : ℚ
  now : Nat

/-- Environment inputs for one storm-loop iteration. -/
structure StormIn where
  n : Nat
  r : ℚ
  t : ℚ
  u : ℚ
  now : Nat

/-- `experience_mist`: the whole misting loop, one `MistIn` per
iteration (the iteration count is decided by wall-clock time, which is
part of the environment). -/
def runMist : SimState → List MistIn → Except PyError SimState
  | s, [] => .ok s
  | s, i :: ins =>
    (stepMist s i.n i.r i.t i.u i.d i.now).bind fun sd => runMist sd.1 ins

/-- `experience_rain`: the whole storm loop. -/
def runStorm : SimState → List StormIn → Except PyError SimState
  | s, [] => .ok s
  | s, i :: ins =>
    (stepStorm s i.n i.r i.t i.u i.now).bind fun sd => runStorm sd.1 ins

/-- The fixed relief table of `experience_clearing`. -/
def reliefs : List (String × ℚ) :=
  [("🌤️ Emerging Light", -0.18),
   ("☀️ Warming Rays", -0.32),
   ("🌈 Rainbow Serenity", -0.45)]

/-- The event dict built for one relief entry. -/
def reliefEvent (p : String × ℚ) : Event :=
  { type := "relief", name := p.1, intensity := p.2, chaos := 1 }

/-- `experience_clearing`: apply the three fixed relief events in order
(`is_mist` defaults to `False`), displaying each unconditionally.  The
second component collects the displayed events; `t1 t2 t3` are the three
timestamps. -/
def experience_clearing (s : SimState) (t1 t2 t3 : Nat) : SimState × List Event :=
  (reliefs.zip [t1, t2, t3]).foldl
    (fun acc pt => ((apply_event acc.1 (reliefEvent pt.1) false pt.2).1,
                    acc.2 ++ [reliefEvent pt.1]))
    (s, [])

/-- `experience_full_cycle`: mist loop, then storm loop, then clearing. -/
def experience_full_cycle (s : SimState) (mistIns : List MistIn) (stormIns : List StormIn)
    (t1 t2 t3 : Nat) : Except PyError SimState :=
  (runMist s mistIns).bind fun s1 =>
    (runStorm s1 stormIns).map fun s2 =>
      (experience_clearing s2 t1 t2 t3).1

/-- Number of thunder entries in an event log. -/
def thunderLogCount (l : List LoggedEvent) : Nat :=
  (l.filter fun e => isThunderKey e.type).length

/-- An interleaving step for the frame claim: either an applied event or a
decay step. -/
inductive SimOp where
  | applyE (ev : Event) (is_mist : Bool) (now : Nat)
  | decayE (mist_mode : Bool)

/-- Run an arbitrary interleaving of applied events and decay steps. -/
def runOps (s : SimState) (ops : List SimOp) : SimState :=
  ops.foldl
    (fun st o => match o with
      | .applyE ev m now => (apply_event st ev m now).1
      | .decayE m => decay_state st m)
    s

/-- The signed sum of the intensities of the applied events of an
interleaving. -/
def appliedSum (ops : List SimOp) : ℚ :=
  (ops.map fun o => match o with
    | .applyE ev _ _ => ev.intensity
    | .decayE _ => 0).sum

/-- Modelled from the spec: the catalog well-formedness condition of §7
(`ConfigurationError` taxonomy: no negative weight, no inverted intensity
range, weight total positive).  The source has no validation code at all,
so this predicate follows the spec's words; it is only compared against
the fixed tables the code actually constructs. -/
def catalogValidSpec (tbl : List (String × EventSpec)) : Prop :=
  (∀ kv ∈ tbl, 0 ≤ kv.2.weight ∧ kv.2.intensity_range.1 ≤ kv.2.intensity_range.2) ∧
  0 < (tbl.map fun kv => kv.2.weight).sum

/-- The run invariant: the tables and the thunder cap are the constants
set by `__init__`, the thunder count never exceeds the cap, and the log
never holds more thunder entries than the thunder count. -/
def RunInv (s : SimState) : Prop :=
  s.mist_types = init.mist_types ∧ s.shock_types = init.shock_types ∧
  s.max_thunder = init.max_thunder ∧
  s.thunder_count ≤ s.max_thunder ∧
  thunderLogCount s.shocks ≤ s.thunder_count

theorem getD_mem_or_eq {α : Type _} : ∀ (l : List α) (i : Nat) (d : α),
    l.getD i d ∈ l ∨ l.getD i d = d
  | [], _, _ => Or.inr rfl
  | a :: _, 0, _ => Or.inl (by simp)
  | a :: l, i + 1, d => by
    rcases getD_mem_or_eq l i d with h | h
    · exact Or.inl (by rw [List.getD_cons_succ]; exact List.mem_cons_of_mem a h)
    · right
      rw [List.getD_cons_succ]
      exact h

theorem choices_cons (p : α) (ps : List α) (ws : List ℚ) (r : ℚ) :
    choices (p :: ps) ws r =
      if (p :: ps).length ≠ ws.length then .error .valueError
      else if ws.sum ≤ 0 then .error .valueError
      else .ok ((p :: ps).getD (bisect_right (cumWeights ws) (r * ws.sum) ps.length) p) := rfl

theorem choices_ok_mem {α : Type _} {pop : List α} {ws : List ℚ} {r : ℚ} {a : α}
    (h : choices pop ws r = .ok a) : a ∈ pop := by
  cases pop with
  | nil =>
    unfold choices at h
    split at h
    · exact absurd h (by simp)
    · exact absurd h (by simp)
  | cons p ps =>
    rw [choices_cons] at h
    split at h
    · exact absurd h (by simp)
    · split at h
      · exact absurd h (by simp)
      · simp only [Except.ok.injEq] at h
        subst h
        rcases getD_mem_or_eq (p :: ps) _ p with hm | he
        · exact hm
        · rw [he]
          exact List.mem_cons_self p ps

theorem choices_ok_of {α : Type _} (pop : List α) (ws : List ℚ) (r : ℚ)
    (hlen : pop.length = ws.length) (hne : pop ≠ []) (hpos : 0 < ws.sum) :
    ∃ a, choices pop ws r = .ok a ∧ a ∈ pop := by
  cases pop with
  | nil => exact absurd rfl hne
  | cons p ps =>
    rw [choices_cons, if_neg (by simp [hlen]), if_neg (not_le.mpr hpos)]
    refine ⟨_, rfl, ?_⟩
    rcases getD_mem_or_eq (p :: ps) (bisect_right (cumWeights ws) (r * ws.sum) ps.length) p
      with hm | he
    · exact hm
    · rw [he]
      exact List.mem_cons_self p ps

theorem choices_err_nonpos {α : Type _} (pop : List α) (ws : List ℚ) (r : ℚ)
    (hlen : pop.length = ws.length) (hne : pop ≠ []) (hns : ws.sum ≤ 0) :
    choices pop ws r = .error .valueError := by
  cases pop with
  | nil => exact absurd rfl hne
  | cons p ps => rw [choices_cons, if_neg (by simp [hlen]), if_pos hns]

/-- All the fields `decay_state` leaves untouched (every field except
`current_state`). -/
structure EqExceptCurrent (s s' : SimState) : Prop where
  mist_types_eq : s'.mist_types = s.mist_types
  shock_types_eq : s'.shock_types = s.shock_types
  mist_rate_eq : s'.mist_rate = s.mist_rate
  mist_unpredictability_eq : s'.mist_unpredictability = s.mist_unpredictability
  drop_rate_eq : s'.drop_rate = s.drop_rate
  unpredictability_eq : s'.unpredictability = s.unpredictability
  shock_threshold_eq : s'.shock_threshold = s.shock_threshold
  thunder_count_eq : s'.thunder_count = s.thunder_count
  max_thunder_eq : s'.max_thunder = s.max_thunder
  baseline_state_eq : s'.baseline_state = s.baseline_state
  shock_decay_eq : s'.shock_decay = s.shock_decay
  mist_decay_eq : s'.mist_decay = s.mist_decay
  shock_accumulation_eq : s'.shock_accumulation = s.shock_accumulation
  shocks_eq : s'.shocks = s.shocks
  total_drops_eq : s'.total_drops = s.total_drops
  total_mist_eq : s'.total_mist = s.total_mist

theorem eqExceptCurrent_rfl (s : SimState) : EqExceptCurrent s s :=
  ⟨rfl, rfl, rfl, rfl, rfl, rfl, rfl, rfl, rfl, rfl, rfl, rfl, rfl, rfl, rfl, rfl⟩

theorem eqExceptCurrent_trans {s t u : SimState}
    (h1 : EqExceptCurrent s t) (h2 : EqExceptCurrent t u) : EqExceptCurrent s u :=
  ⟨h2.mist_types_eq.trans h1.mist_types_eq,
   h2.shock_types_eq.trans h1.shock_types_eq,
   h2.mist_rate_eq.trans h1.mist_rate_eq,
   h2.mist_unpredictability_eq.trans h1.mist_unpredictability_eq,
   h2.drop_rate_eq.trans h1.drop_rate_eq,
   h2.unpredictability_eq.trans h1.unpredictability_eq,
   h2.shock_threshold_eq.trans h1.shock_threshold_eq,
   h2.thunder_count_eq.trans h1.thunder_count_eq,
   h2.max_thunder_eq.trans h1.max_thunder_eq,
   h2.baseline_state_eq.trans h1.baseline_state_eq,
   h2.shock_decay_eq.trans h1.shock_decay_eq,
   h2.mist_decay_eq.trans h1.mist_decay_eq,
   h2.shock_accumulation_eq.trans h1.shock_accumulation_eq,
   h2.shocks_eq.trans h1.shocks_eq,
   h2.total_drops_eq.trans h1.total_drops_eq,
   h2.total_mist_eq.trans h1.total_mist_eq⟩

theorem decay_state_eqExceptCurrent (s : SimState) (m : Bool) :
    EqExceptCurrent s (decay_state s m) := by
  unfold decay_state
  split
  · exact ⟨rfl, rfl, rfl, rfl, rfl, rfl, rfl, rfl, rfl, rfl, rfl, rfl, rfl, rfl, rfl, rfl⟩
  · exact eqExceptCurrent_rfl s

theorem decaySteps_eqExceptCurrent : ∀ (n : Nat) (s : SimState) (m : Bool),
    EqExceptCurrent s (decaySteps s n m)
  | 0, s, _ => eqExceptCurrent_rfl s
  | n + 1, s, m =>
    eqExceptCurrent_trans (decay_state_eqExceptCurrent s m)
      (decaySteps_eqExceptCurrent n (decay_state s m) m)

theorem thunderLogCount_append (l : List LoggedEvent) (e : LoggedEvent) :
    thunderLogCount (l ++ [e]) = thunderLogCount l + (if isThunderKey e.type then 1 else 0) := by
  unfold thunderLogCount
  rw [List.filter_append, List.length_append]
  congr 1
  by_cases h : isThunderKey e.type <;> simp [h]

theorem mist_key_not_thunder {kv : String × EventSpec} (h : kv ∈ init.mist_types) :
    isThunderKey kv.1 = false := by
  simp only [init, List.mem_cons, List.not_mem_nil, or_false] at h
  rcases h with h | h | h <;> subst h <;> decide

theorem filter_not_thunder {l : List (String × EventSpec)} {kv : String × EventSpec}
    (h : kv ∈ l.filter fun kv => ! isThunderKey kv.1) : isThunderKey kv.1 = false := by
  rw [List.mem_filter] at h
  simpa using h.2

theorem generate_mist_ok_elim {s : SimState} {r t u : ℚ} {ev : Event}
    (h : generate_mist s r t u = .ok ev) :
    ∃ kv, kv ∈ s.mist_types ∧ ev =
      { type := kv.1, name := kv.2.name,
        intensity := uniform kv.2.intensity_range.1 kv.2.intensity_range.2 t *
          (1 + uniform (-s.mist_unpredictability) s.mist_unpredictability u),
        chaos := 1 + uniform (-s.mist_unpredictability) s.mist_unpredictability u } := by
  unfold generate_mist at h
  cases hc : choices s.mist_types (s.mist_types.map fun kv => kv.2.weight) r with
  | error e =>
    rw [hc] at h
    exact absurd h (by simp [Except.map])
  | ok kv =>
    rw [hc] at h
    simp only [Except.map, Except.ok.injEq] at h
    exact ⟨kv, choices_ok_mem hc, h.symm⟩

theorem generate_shock_ok_elim {s : SimState} {r t u : ℚ} {ev : Event} {s' : SimState}
    (h : generate_shock s r t u = .ok (ev, s')) :
    ∃ kv, kv ∈ shockAvailable s ∧ ev =
      { type := kv.1, name := kv.2.name,
        intensity := uniform kv.2.intensity_range.1 kv.2.intensity_range.2 t *
          (1 + uniform (-s.unpredictability) (s.unpredictability * 1.5) u),
        chaos := 1 + uniform (-s.unpredictability) (s.unpredictability * 1.5) u } ∧
      s' = (if isThunderKey kv.1 then { s with thunder_count := s.thunder_count + 1 } else s) := by
  unfold generate_shock at h
  cases hc : choices (shockAvailable s) ((shockAvailable s).map fun kv => kv.2.weight) r with
  | error e =>
    rw [hc] at h
    exact absurd h (by simp [Except.map])
  | ok kv =>
    rw [hc] at h
    simp only [Except.map, Except.ok.injEq, Prod.mk.injEq] at h
    exact ⟨kv, choices_ok_mem hc, h.1.symm, h.2.symm⟩

theorem generate_mist_ok_intro (s : SimState) (hm : s.mist_types = init.mist_types)
    (r t u : ℚ) : ∃ ev, generate_mist s r t u = .ok ev := by
  obtain ⟨a, ha, -⟩ := choices_ok_of s.mist_types (s.mist_types.map fun kv => kv.2.weight) r
    (List.length_map _ _).symm
    (by rw [hm]; simp [init])
    (by rw [hm]; norm_num [init])
  exact ⟨_, by unfold generate_mist; rw [ha]; rfl⟩

theorem shock_filter_eq :
    (init.shock_types.filter fun kv => ! isThunderKey kv.1) =
      [("gentle_tap", { weight := 0.50, intensity_range := (0.02, 0.05), name := "gentle tap" }),
       ("sharp_hit", { weight := 0.32, intensity_range := (0.05, 0.12), name := "sharp HIT" }),
       ("cold_spike", { weight := 0.15, intensity_range := (0.12, 0.25), name := "COLD spike" })] :=
  rfl

theorem shockAvailable_facts (s : SimState) (hs : s.shock_types = init.shock_types) :
    shockAvailable s ≠ [] ∧ 0 < ((shockAvailable s).map fun kv => kv.2.weight).sum := by
  unfold shockAvailable
  rw [hs]
  split
  · rw [shock_filter_eq]
    constructor
    · simp
    · norm_num
  · constructor
    · simp [init]
    · norm_num [init]

theorem generate_shock_ok_intro (s : SimState) (hs : s.shock_types = init.shock_types)
    (r t u : ℚ) : ∃ ev s', generate_shock s r t u = .ok (ev, s') := by
  obtain ⟨hne, hpos⟩ := shockAvailable_facts s hs
  obtain ⟨a, ha, -⟩ := choices_ok_of (shockAvailable s)
    ((shockAvailable s).map fun kv => kv.2.weight) r (List.length_map _ _).symm hne hpos
  exact ⟨_, _, by unfold generate_shock; rw [ha]; rfl⟩

theorem shockAvailable_not_thunder {s : SimState} {kv : String × EventSpec}
    (hcap : s.max_thunder ≤ s.thunder_count) (h : kv ∈ shockAvailable s) :
    isThunderKey kv.1 = false := by
  unfold shockAvailable at h
  rw [if_pos hcap] at h
  exact filter_not_thunder h

theorem apply_event_fst (s : SimState) (ev : Event) (m : Bool) (now : Nat) :
    (apply_event s ev m now).1 = { s with
      current_state := s.current_state + ev.intensity,
      shock_accumulation := s.shock_accumulation + ev.intensity,
      shocks := s.shocks ++ [{
        timestamp := now, type := ev.type, name := ev.name,
        intensity := ev.intensity, chaos_factor := ev.chaos,
        state_before := s.current_state, state_after := s.current_state + ev.intensity,
        is_mist := m }] } := rfl

theorem apply_event_snd (s : SimState) (ev : Event) (m : Bool) (now : Nat) :
    (apply_event s ev m now).2 = if s.shock_threshold ≤ |ev.intensity| then true else false := rfl

theorem runInv_init : RunInv init :=
  ⟨rfl, rfl, rfl, by norm_num [init], by simp [init, thunderLogCount]⟩

theorem stepMist_props (s : SimState) (hInv : RunInv s) (n : Nat) (r t u d : ℚ) (now : Nat) :
    ∃ s' disp, stepMist s n r t u d now = .ok (s', disp) ∧ RunInv s' ∧
      s'.thunder_count = s.thunder_count ∧
      s'.total_mist = s.total_mist + 1 ∧ s'.total_drops = s.total_drops ∧
      s'.shocks.length = s.shocks.length + 1 := by
  obtain ⟨hm, hs, hmax, hcnt, hlog⟩ := hInv
  have hfr := decaySteps_eqExceptCurrent n s true
  obtain ⟨ev, hev⟩ := generate_mist_ok_intro (decaySteps s n true)
    (hfr.mist_types_eq.trans hm) r t u
  obtain ⟨kv, hkv, hevdef⟩ := generate_mist_ok_elim hev
  have hkv' : kv ∈ init.mist_types := by
    rw [← hfr.mist_types_eq.trans hm]
    exact hkv
  have hnt : isThunderKey ev.type = false := by
    rw [hevdef]
    exact mist_key_not_thunder hkv'
  refine ⟨(apply_event { decaySteps s n true with
      total_mist := (decaySteps s n true).total_mist + 1 } ev true now).1,
    if d < 0.3 then true else false, ?_, ⟨?_, ?_, ?_, ?_, ?_⟩, ?_, ?_, ?_, ?_⟩
  · simp only [stepMist]
    rw [hev]
    rfl
  · simp [apply_event, hfr.mist_types_eq, hm]
  · simp [apply_event, hfr.shock_types_eq, hs]
  · simp [apply_event, hfr.max_thunder_eq, hmax]
  · simp only [apply_event]
    simp [hfr.thunder_count_eq, hfr.max_thunder_eq]
    exact hcnt
  · simp [apply_event, thunderLogCount_append, hnt, hfr.shocks_eq, hfr.thunder_count_eq]
    exact hlog
  · simp [apply_event, hfr.thunder_count_eq]
  · simp [apply_event, hfr.total_mist_eq]
  · simp [apply_event, hfr.total_drops_eq]
  · simp [apply_event, hfr.shocks_eq]

theorem stepStorm_props (s : SimState) (hInv : RunInv s) (n : Nat) (r t u : ℚ) (now : Nat) :
    ∃ s' disp, stepStorm s n r t u now = .ok (s', disp) ∧ RunInv s' ∧
      s'.thunder_count ≤ s.thunder_count + 1 ∧
      s'.total_mist = s.total_mist ∧ s'.total_drops = s.total_drops + 1 ∧
      s'.shocks.length = s.shocks.length + 1 := by
  obtain ⟨hm, hs, hmax, hcnt, hlog⟩ := hInv
  have hfr := decaySteps_eqExceptCurrent n s false
  obtain ⟨ev, s2, hev⟩ := generate_shock_ok_intro (decaySteps s n false)
    (hfr.shock_types_eq.trans hs) r t u
  obtain ⟨kv, hkv, hevdef, hs2⟩ := generate_shock_ok_elim hev
  have hevt : ev.type = kv.1 := by rw [hevdef]
  have hstep : stepStorm s n r t u now = .ok
      ((apply_event { s2 with total_drops := s2.total_drops + 1 } ev false now).1,
       (apply_event { s2 with total_drops := s2.total_drops + 1 } ev false now).2) := by
    simp only [stepStorm]
    rw [hev]
    rfl
  cases hth : isThunderKey kv.1 with
  | false =>
    rw [hth] at hs2
    simp at hs2
    subst hs2
    refine ⟨_, _, hstep, ⟨?_, ?_, ?_, ?_, ?_⟩, ?_, ?_, ?_, ?_⟩
    · simp [apply_event, hfr.mist_types_eq, hm]
    · simp [apply_event, hfr.shock_types_eq, hs]
    · simp [apply_event, hfr.max_thunder_eq, hmax]
    · simp only [apply_event]
      simp [hfr.thunder_count_eq, hfr.max_thunder_eq]
      exact hcnt
    · simp [apply_event, thunderLogCount_append, hevt, hth, hfr.shocks_eq,
        hfr.thunder_count_eq]
      exact hlog
    · simp [apply_event, hfr.thunder_count_eq]
    · simp [apply_event, hfr.total_mist_eq]
    · simp [apply_event, hfr.total_drops_eq]
    · simp [apply_event, hfr.shocks_eq]
  | true =>
    have hnocap : ¬ ((decaySteps s n false).max_thunder ≤ (decaySteps s n false).thunder_count) := by
      intro hcap
      have hth' := hth
      rw [shockAvailable_not_thunder hcap hkv] at hth'
      exact absurd hth' (by decide)
    rw [hth] at hs2
    simp at hs2
    subst hs2
    refine ⟨_, _, hstep, ⟨?_, ?_, ?_, ?_, ?_⟩, ?_, ?_, ?_, ?_⟩
    · simp [apply_event, hfr.mist_types_eq, hm]
    · simp [apply_event, hfr.shock_types_eq, hs]
    · simp [apply_event, hfr.max_thunder_eq, hmax]
    · simp only [apply_event]
      omega
    · simp [apply_event, thunderLogCount_append, hevt, hth, hfr.shocks_eq,
        hfr.thunder_count_eq]
      have : thunderLogCount s.shocks ≤ s.thunder_count := hlog
      omega
    · simp [apply_event, hfr.thunder_count_eq]
    · simp [apply_event, hfr.total_mist_eq]
    · simp [apply_event, hfr.total_drops_eq]
    · simp [apply_event, hfr.shocks_eq]

theorem runMist_props : ∀ (ins : List MistIn) (s : SimState), RunInv s →
    ∃ s', runMist s ins = .ok s' ∧ RunInv s' ∧
      s'.thunder_count = s.thunder_count ∧
      s'.total_mist = s.total_mist + ins.length ∧
      s'.total_drops = s.total_drops ∧
      s'.shocks.length = s.shocks.length + ins.length
  | [], s, h => ⟨s, rfl, h, rfl, rfl, rfl, rfl⟩
  | i :: ins, s, h => by
    obtain ⟨s1, d1, hstep, hInv1, ht1, hm1, hd1, hl1⟩ :=
      stepMist_props s h i.n i.r i.t i.u i.d i.now
    obtain ⟨s', hrun, hInv', ht', hm', hd', hl'⟩ := runMist_props ins s1 hInv1
    refine ⟨s', ?_, hInv', ht'.trans ht1, ?_, hd'.trans hd1, ?_⟩
    · show (stepMist s i.n i.r i.t i.u i.d i.now).bind (fun sd => runMist sd.1 ins) = .ok s'
      rw [hstep]
      exact hrun
    · rw [hm', hm1, List.length_cons]
      omega
    · rw [hl', hl1, List.length_cons]
      omega

theorem runStorm_props : ∀ (ins : List StormIn) (s : SimState), RunInv s →
    ∃ s', runStorm s ins = .ok s' ∧ RunInv s' ∧
      s'.total_mist = s.total_mist ∧
      s'.total_drops = s.total_drops + ins.length ∧
      s'.shocks.length = s.shocks.length + ins.length
  | [], s, h => ⟨s, rfl, h, rfl, rfl, rfl⟩
  | i :: ins, s, h => by
    obtain ⟨s1, d1, hstep, hInv1, ht1, hm1, hd1, hl1⟩ :=
      stepStorm_props s h i.n i.r i.t i.u i.now
    obtain ⟨s', hrun, hInv', hm', hd', hl'⟩ := runStorm_props ins s1 hInv1
    refine ⟨s', ?_, hInv', hm'.trans hm1, ?_, ?_⟩
    · show (stepStorm s i.n i.r i.t i.u i.now).bind (fun sd => runStorm sd.1 ins) = .ok s'
      rw [hstep]
      exact hrun
    · rw [hd', hd1, List.length_cons]
      omega
    · rw [hl', hl1, List.length_cons]
      omega

theorem experience_clearing_fst (s : SimState) (t1 t2 t3 : Nat) :
    (experience_clearing s t1 t2 t3).1 = { s with
      current_state := s.current_state + -0.18 + -0.32 + -0.45,
      shock_accumulation := s.shock_accumulation + -0.18 + -0.32 + -0.45,
      shocks := s.shocks ++ [{
        timestamp := t1, type := "relief", name := "🌤️ Emerging Light", intensity := -0.18,
        chaos_factor := 1, state_before := s.current_state,
        state_after := s.current_state + -0.18, is_mist := false }, {
        timestamp := t2, type := "relief", name := "☀️ Warming Rays", intensity := -0.32,
        chaos_factor := 1, state_before := s.current_state + -0.18,
        state_after := s.current_state + -0.18 + -0.32, is_mist := false }, {
        timestamp := t3, type := "relief", name := "🌈 Rainbow Serenity", intensity := -0.45,
        chaos_factor := 1, state_before := s.current_state + -0.18 + -0.32,
        state_after := s.current_state + -0.18 + -0.32 + -0.45, is_mist := false }] } := by
  simp [experience_clearing, reliefs, reliefEvent, apply_event]

theorem experience_clearing_snd (s : SimState) (t1 t2 t3 : Nat) :
    (experience_clearing s t1 t2 t3).2 = reliefs.map reliefEvent := by
  simp [experience_clearing, reliefs, reliefEvent]

theorem shock_key_ne_facts :
    ¬("gentle_tap" : String) = "quick_rumble" ∧ ¬("gentle_tap" : String) = "deep_roll" ∧
    ¬("sharp_hit" : String) = "quick_rumble" ∧ ¬("sharp_hit" : String) = "deep_roll" ∧
    ¬("cold_spike" : String) = "quick_rumble" ∧ ¬("cold_spike" : String) = "deep_roll" := by
  decide

theorem thunderLogCount_append_list (l l2 : List LoggedEvent) :
    thunderLogCount (l ++ l2) = thunderLogCount l + thunderLogCount l2 := by
  simp [thunderLogCount, List.filter_append]

theorem shockAvailable_subset {s : SimState} {kv : String × EventSpec}
    (h : kv ∈ shockAvailable s) : kv ∈ s.shock_types := by
  unfold shockAvailable at h
  split at h
  · exact List.mem_of_mem_filter h
  · exact h

theorem runOps_accumulation : ∀ (ops : List SimOp) (s : SimState),
    (runOps s ops).shock_accumulation = s.shock_accumulation + appliedSum ops
  | [], s => by simp [runOps, appliedSum]
  | .applyE ev m now :: ops, s => by
    have ih := runOps_accumulation ops (apply_event s ev m now).1
    simp only [runOps, List.foldl_cons] at ih ⊢
    rw [ih]
    simp [apply_event, appliedSum]
    ring
  | .decayE m :: ops, s => by
    have ih := runOps_accumulation ops (decay_state s m)
    simp only [runOps, List.foldl_cons] at ih ⊢
    rw [ih, (decay_state_eqExceptCurrent s m).shock_accumulation_eq]
    simp [appliedSum]

theorem experience_full_cycle_props (mistIns : List MistIn) (stormIns : List StormIn)
    (t1 t2 t3 : Nat) {s' : SimState}
    (h : experience_full_cycle init mistIns stormIns t1 t2 t3 = .ok s') :
    s'.total_mist = mistIns.length ∧ s'.total_drops = stormIns.length ∧
    s'.shocks.length = s'.total_mist + s'.total_drops + 3 ∧
    s'.thunder_count ≤ 2 ∧ thunderLogCount s'.shocks ≤ 2 := by
  obtain ⟨s1, hrun1, hInv1, ht1, hm1, hd1, hl1⟩ := runMist_props mistIns init runInv_init
  obtain ⟨s2, hrun2, hInv2, hm2, hd2, hl2⟩ := runStorm_props stormIns s1 hInv1
  obtain ⟨hmt2, hst2, hmax2, hcnt2, hlog2⟩ := hInv2
  unfold experience_full_cycle at h
  rw [hrun1] at h
  rw [show (Except.ok s1 : Except PyError SimState).bind
      (fun x => (runStorm x stormIns).map fun s3 => (experience_clearing s3 t1 t2 t3).1) =
      (runStorm s1 stormIns).map (fun s3 => (experience_clearing s3 t1 t2 t3).1) from rfl] at h
  rw [hrun2] at h
  simp only [Except.map, Except.ok.injEq] at h
  subst h
  rw [experience_clearing_fst]
  refine ⟨?_, ?_, ?_, ?_, ?_⟩
  · show s2.total_mist = mistIns.length
    rw [hm2, hm1]
    simp [init]
  · show s2.total_drops = stormIns.length
    rw [hd2, hd1]
    simp [init]
  · show (s2.shocks ++ _).length = s2.total_mist + s2.total_drops + 3
    rw [List.length_append, hl2, hl1, hm2, hm1, hd2, hd1]
    simp [init]
  · show s2.thunder_count ≤ 2
    rw [show (2 : Nat) = init.max_thunder from rfl, ← hmax2]
    exact hcnt2
  · show thunderLogCount (s2.shocks ++ _) ≤ 2
    rw [thunderLogCount_append_list]
    have hz : thunderLogCount [({ timestamp := t1, type := "relief", name := "🌤️ Emerging Light", intensity := -0.18, chaos_factor := 1, state_before := s2.current_state, state_after := s2.current_state + -0.18, is_mist := false } : LoggedEvent), { timestamp := t2, type := "relief", name := "☀️ Warming Rays", intensity := -0.32, chaos_factor := 1, state_before := s2.current_state + -0.18, state_after := s2.current_state + -0.18 + -0.32, is_mist := false }, { timestamp := t3, type := "relief", name := "🌈 Rainbow Serenity", intensity := -0.45, chaos_factor := 1, state_before := s2.current_state + -0.18 + -0.32, state_after := s2.current_state + -0.18 + -0.32 + -0.45, is_mist := false }] = 0 := by
      simp [thunderLogCount, isThunderKey]
    rw [hz]
    have h2 : s2.thunder_count ≤ 2 := by
      rw [show (2 : Nat) = init.max_thunder from rfl, ← hmax2]
      exact hcnt2
    omega

/-- C1: whenever `generate_shock` runs with `thunder_count ≥ max_thunder` it draws
only from the shock categories excluding the two thunder keys (`quick_rumble`,
`deep_roll`) and leaves `thunder_count` unchanged; every call increments
`thunder_count` by at most 1; and over any full cycle started from `__init__`
(thunder cap 2), the final thunder count and the number of thunder entries in
the event log never exceed 2. -/
theorem C1_thunder_cap :
    (∀ (s : SimState) (r t u : ℚ) (ev : Event) (s' : SimState),
      s.max_thunder ≤ s.thunder_count → generate_shock s r t u = .ok (ev, s') →
      ev.type ≠ "quick_rumble" ∧ ev.type ≠ "deep_roll" ∧
      s'.thunder_count = s.thunder_count) ∧
    (∀ (s : SimState) (r t u : ℚ) (ev : Event) (s' : SimState),
      generate_shock s r t u = .ok (ev, s') →
      s'.thunder_count ≤ s.thunder_count + 1) ∧
    (∀ (mistIns : List MistIn) (stormIns : List StormIn) (t1 t2 t3 : Nat) (s' : SimState),
      experience_full_cycle init mistIns stormIns t1 t2 t3 = .ok s' →
      s'.thunder_count ≤ 2 ∧ thunderLogCount s'.shocks ≤ 2) := by
  refine ⟨?_, ?_, ?_⟩
  · intro s r t u ev s' hcap h
    obtain ⟨kv, hkv, hevdef, hs2⟩ := generate_shock_ok_elim h
    have hnt := shockAvailable_not_thunder hcap hkv
    have hevt : ev.type = kv.1 := by rw [hevdef]
    have hne : ¬kv.1 = "quick_rumble" ∧ ¬kv.1 = "deep_roll" := by
      simpa [isThunderKey] using hnt
    refine ⟨by rw [hevt]; exact hne.1, by rw [hevt]; exact hne.2, ?_⟩
    rw [hs2, if_neg (by simp [hnt])]
  · intro s r t u ev s' h
    obtain ⟨kv, hkv, hevdef, hs2⟩ := generate_shock_ok_elim h
    rw [hs2]
    split
    · exact Nat.le_refl _
    · exact Nat.le_succ _
  · intro mistIns stormIns t1 t2 t3 s' h
    have hp := experience_full_cycle_props mistIns stormIns t1 t2 t3 h
    exact ⟨hp.2.2.2.1, hp.2.2.2.2⟩

/-- Witness for C1: with the thunder quota already reached (`thunder_count = 2 =
max_thunder`), a concrete `generate_shock` call draws `gentle_tap` (not a thunder
key) and leaves the count at 2; and a concrete full cycle ends with at most 2
thunder entries in the log. -/
theorem C1_thunder_cap_witness :
    ({ init with thunder_count := 2 } : SimState).max_thunder ≤ ({ init with thunder_count := 2 } : SimState).thunder_count ∧
    generate_shock { init with thunder_count := 2 } 0 0 0 = .ok ({ type := "gentle_tap", name := "gentle tap", intensity := 0.01, chaos := 0.5 }, { init with thunder_count := 2 }) ∧
    (({ type := "gentle_tap", name := "gentle tap", intensity := 0.01, chaos := 0.5 } : Event).type ≠ "quick_rumble" ∧
     ({ type := "gentle_tap", name := "gentle tap", intensity := 0.01, chaos := 0.5 } : Event).type ≠ "deep_roll" ∧
     ({ init with thunder_count := 2 } : SimState).thunder_count = ({ init with thunder_count := 2 } : SimState).thunder_count) ∧
    (experience_full_cycle init [] [] 0 0 0 = .ok (experience_clearing init 0 0 0).1 ∧
     (experience_clearing init 0 0 0).1.thunder_count ≤ 2 ∧
     thunderLogCount (experience_clearing init 0 0 0).1.shocks ≤ 2) := by
  have hcap : ({ init with thunder_count := 2 } : SimState).max_thunder ≤ ({ init with thunder_count := 2 } : SimState).thunder_count := by
    norm_num [init]
  have hgen : generate_shock { init with thunder_count := 2 } 0 0 0 = .ok ({ type := "gentle_tap", name := "gentle tap", intensity := 0.01, chaos := 0.5 }, { init with thunder_count := 2 }) := by
    norm_num [generate_shock, shockAvailable, choices, init, cumWeights, bisect_right, countLe,
      uniform, isThunderKey, Except.map, List.filter_cons, List.filter_nil, shock_key_ne_facts,
      List.take]
  have hfc : experience_full_cycle init [] [] 0 0 0 = .ok (experience_clearing init 0 0 0).1 := rfl
  exact ⟨hcap, hgen, C1_thunder_cap.1 _ 0 0 0 _ _ hcap hgen,
    hfc, C1_thunder_cap.2.2 [] [] 0 0 0 _ hfc⟩

/-- C2: `apply_event` adds the event intensity to `current_state` and to
`shock_accumulation`, appends exactly one log entry whose `state_before` is the
pre-call state and `state_after` the post-call state, and returns `True` iff
`|intensity| ≥ shock_threshold`; concretely, from `current_state = 1.0`
(baseline 1.0), an event of intensity +0.30 yields `current_state = 1.30`,
`shock_accumulation = 0.30`, and a log entry with `state_before = 1.0`,
`state_after = 1.30`. -/
theorem C2_apply_event :
    (∀ (s : SimState) (ev : Event) (m : Bool) (now : Nat),
      (apply_event s ev m now).1.current_state = s.current_state + ev.intensity ∧
      (apply_event s ev m now).1.shock_accumulation = s.shock_accumulation + ev.intensity ∧
      (apply_event s ev m now).1.shocks = s.shocks ++ [{ timestamp := now, type := ev.type, name := ev.name, intensity := ev.intensity, chaos_factor := ev.chaos, state_before := s.current_state, state_after := s.current_state + ev.intensity, is_mist := m }] ∧
      ((apply_event s ev m now).2 = true ↔ s.shock_threshold ≤ |ev.intensity|)) ∧
    ((apply_event init { type := "x", name := "x", intensity := 0.30, chaos := 1 } false 0).1.current_state = 1.30 ∧
     (apply_event init { type := "x", name := "x", intensity := 0.30, chaos := 1 } false 0).1.shock_accumulation = 0.30 ∧
     (apply_event init { type := "x", name := "x", intensity := 0.30, chaos := 1 } false 0).1.shocks = [{ timestamp := 0, type := "x", name := "x", intensity := 0.30, chaos_factor := 1, state_before := 1.0, state_after := 1.30, is_mist := false }]) := by
  constructor
  · intro s ev m now
    refine ⟨rfl, rfl, rfl, ?_⟩
    simp [apply_event]
  · refine ⟨?_, ?_, ?_⟩ <;> norm_num [apply_event, init]

/-- C3: `decay_state` never changes `current_state` when it is at or below the
baseline; above the baseline it sets it to
`(current - baseline) * decay_rate + baseline` with `decay_rate = mist_decay`
in mist mode and `shock_decay` otherwise; for `0 < decay_rate < 1` one step
strictly decreases the state while keeping it strictly above the baseline; and
from `current_state = 1.30` (baseline 1.0, `shock_decay = 0.95`) one storm-mode
step yields exactly 1.285. -/
theorem C3_decay_state :
    (∀ (s : SimState) (m : Bool), s.current_state ≤ s.baseline_state → decay_state s m = s) ∧
    (∀ (s : SimState) (m : Bool), s.baseline_state < s.current_state →
      (decay_state s m).current_state =
        (s.current_state - s.baseline_state) * (if m then s.mist_decay else s.shock_decay) +
          s.baseline_state) ∧
    (∀ (s : SimState) (m : Bool), s.baseline_state < s.current_state →
      0 < (if m then s.mist_decay else s.shock_decay) →
      (if m then s.mist_decay else s.shock_decay) < 1 →
      s.baseline_state < (decay_state s m).current_state ∧
      (decay_state s m).current_state < s.current_state) ∧
    (decay_state { init with current_state := 1.30 } false).current_state = 1.285 := by
  refine ⟨?_, ?_, ?_, ?_⟩
  · intro s m h
    unfold decay_state
    rw [if_neg (not_lt.mpr h)]
  · intro s m h
    unfold decay_state
    rw [if_pos h]
  · intro s m h h0 h1
    have hc : (decay_state s m).current_state =
        (s.current_state - s.baseline_state) * (if m then s.mist_decay else s.shock_decay) +
          s.baseline_state := by
      unfold decay_state
      rw [if_pos h]
    rw [hc]
    constructor
    · have := mul_pos (sub_pos.mpr h) h0
      linarith
    · have := mul_lt_of_lt_one_right (sub_pos.mpr h) h1
      linarith
  · norm_num [decay_state, init]

/-- Witness for C3: at `current_state = baseline` the step is the identity, and
from the concrete state `current_state = 1.30` a storm-mode step lands strictly
between the baseline 1.0 and 1.30. -/
theorem C3_decay_state_witness :
    decay_state init false = init ∧
    (({ init with current_state := 1.30 } : SimState).baseline_state <
       (decay_state { init with current_state := 1.30 } false).current_state ∧
     (decay_state { init with current_state := 1.30 } false).current_state <
       ({ init with current_state := 1.30 } : SimState).current_state) :=
  ⟨C3_decay_state.1 init false (by norm_num [init]),
   C3_decay_state.2.2.1 { init with current_state := 1.30 } false (by norm_num [init])
     (by norm_num [init]) (by norm_num [init])⟩

/-- C4: over an arbitrary interleaving of applied events and decay steps,
`shock_accumulation` ends at its initial value plus the exact signed sum of the
applied events' intensities, and a decay step never changes any field other
than `current_state` (in particular not the accumulator, the baseline, the
thunder count, or the event log). -/
theorem C4_accumulation_frame :
    (∀ (ops : List SimOp) (s : SimState),
      (runOps s ops).shock_accumulation = s.shock_accumulation + appliedSum ops) ∧
    (∀ (s : SimState) (m : Bool),
      (decay_state s m).shock_accumulation = s.shock_accumulation ∧
      (decay_state s m).baseline_state = s.baseline_state ∧
      (decay_state s m).thunder_count = s.thunder_count ∧
      (decay_state s m).shocks = s.shocks ∧
      (decay_state s m).total_mist = s.total_mist ∧
      (decay_state s m).total_drops = s.total_drops ∧
      (decay_state s m).mist_types = s.mist_types ∧
      (decay_state s m).shock_types = s.shock_types ∧
      (decay_state s m).max_thunder = s.max_thunder) := by
  constructor
  · exact runOps_accumulation
  · intro s m
    have h := decay_state_eqExceptCurrent s m
    exact ⟨h.shock_accumulation_eq, h.baseline_state_eq, h.thunder_count_eq, h.shocks_eq,
      h.total_mist_eq, h.total_drops_eq, h.mist_types_eq, h.shock_types_eq, h.max_thunder_eq⟩

/-- C5 counterexample: the clearing phase does mutate the simulation state —
running `experience_clearing` from the freshly initialised state changes
`current_state`, changes `shock_accumulation`, and appends to the event log. -/
theorem C5_counterexample :
    (experience_clearing init 0 0 0).1.current_state ≠ init.current_state ∧
    (experience_clearing init 0 0 0).1.shock_accumulation ≠ init.shock_accumulation ∧
    (experience_clearing init 0 0 0).1.shocks ≠ init.shocks := by
  rw [experience_clearing_fst]
  refine ⟨by norm_num [init], by norm_num [init], ?_⟩
  simp [init]

/-- C5 amended: the clearing phase mutates the simulation state — the three
relief events lower `current_state` and `shock_accumulation` by exactly 0.95
and append three entries to the log — while leaving the thunder counters, the
baseline, the per-phase totals and the category tables unchanged. -/
theorem C5_clearing_mutation :
    ∀ (s : SimState) (t1 t2 t3 : Nat),
      (experience_clearing s t1 t2 t3).1.current_state = s.current_state - 0.95 ∧
      (experience_clearing s t1 t2 t3).1.current_state ≠ s.current_state ∧
      (experience_clearing s t1 t2 t3).1.shock_accumulation = s.shock_accumulation - 0.95 ∧
      (experience_clearing s t1 t2 t3).1.shocks.length = s.shocks.length + 3 ∧
      (experience_clearing s t1 t2 t3).1.thunder_count = s.thunder_count ∧
      (experience_clearing s t1 t2 t3).1.max_thunder = s.max_thunder ∧
      (experience_clearing s t1 t2 t3).1.baseline_state = s.baseline_state ∧
      (experience_clearing s t1 t2 t3).1.total_mist = s.total_mist ∧
      (experience_clearing s t1 t2 t3).1.total_drops = s.total_drops ∧
      (experience_clearing s t1 t2 t3).1.mist_types = s.mist_types ∧
      (experience_clearing s t1 t2 t3).1.shock_types = s.shock_types := by
  intro s t1 t2 t3
  rw [experience_clearing_fst]
  refine ⟨?_, ?_, ?_, ?_, rfl, rfl, rfl, rfl, rfl, rfl, rfl⟩
  · show s.current_state + -0.18 + -0.32 + -0.45 = s.current_state - 0.95
    ring
  · show s.current_state + -0.18 + -0.32 + -0.45 ≠ s.current_state
    intro hc
    linarith
  · show s.shock_accumulation + -0.18 + -0.32 + -0.45 = s.shock_accumulation - 0.95
    ring
  · show (s.shocks ++ _).length = s.shocks.length + 3
    rw [List.length_append]
    rfl

/-- C6 counterexample: no `ConfigurationError` exists in the code and nothing is
validated at construction time — with an all-zero weight table, sampling fails
at `random.choices` with a `ValueError`, which is not a `ConfigurationError`. -/
theorem C6_counterexample :
    generate_shock { init with shock_types := [("weightless", { weight := 0, intensity_range := (0.02, 0.05), name := "weightless" })] } 0 0 0 = .error PyError.valueError ∧
    PyError.valueError ≠ PyError.configurationError := by
  constructor
  · norm_num [generate_shock, shockAvailable, choices, init, isThunderKey, Except.map,
      List.filter_cons, List.filter_nil]
  · decide

/-- C6 amended: the source performs no catalog validation and defines no
`ConfigurationError`; its hard-coded tables happen to satisfy the spec's
well-formedness condition (no negative weight, no inverted range, positive
weight total), and with these tables `generate_mist` and `generate_shock` are
total (they always return an event); an all-zero (or otherwise non-positive)
weight set would fail only at sampling time, inside `random.choices`, with a
`ValueError`. -/
theorem C6_no_validation :
    catalogValidSpec init.mist_types ∧ catalogValidSpec init.shock_types ∧
    (∀ (s : SimState) (r t u : ℚ), s.mist_types = init.mist_types →
      ∃ ev, generate_mist s r t u = .ok ev) ∧
    (∀ (s : SimState) (r t u : ℚ), s.shock_types = init.shock_types →
      ∃ ev s', generate_shock s r t u = .ok (ev, s')) ∧
    (∀ (α : Type) (pop : List α) (ws : List ℚ) (r : ℚ),
      pop.length = ws.length → pop ≠ [] → ws.sum ≤ 0 →
      choices pop ws r = .error PyError.valueError) := by
  refine ⟨⟨?_, ?_⟩, ⟨?_, ?_⟩, ?_, ?_, ?_⟩
  · intro kv hkv
    simp [init] at hkv
    rcases hkv with h | h | h <;> subst h <;> constructor <;> norm_num
  · norm_num [init]
  · intro kv hkv
    simp [init] at hkv
    rcases hkv with h | h | h | h | h <;> subst h <;> constructor <;> norm_num
  · norm_num [init]
  · intro s r t u hm
    exact generate_mist_ok_intro s hm r t u
  · intro s r t u hs
    exact generate_shock_ok_intro s hs r t u
  · intro α pop ws r h1 h2 h3
    exact choices_err_nonpos pop ws r h1 h2 h3

/-- Witness for C6: `choices` over a concrete single-entry population with the
all-zero weight list `[0]` fails with `ValueError`, and sampling from the real
catalog succeeds. -/
theorem C6_no_validation_witness :
    ([("k", (0 : ℚ))].length = [(0 : ℚ)].length) ∧ ([("k", (0 : ℚ))] ≠ []) ∧
    ([(0 : ℚ)].sum ≤ 0) ∧
    choices [("k", (0 : ℚ))] [(0 : ℚ)] 0 = .error PyError.valueError ∧
    (∃ ev, generate_mist init 0 0 0 = .ok ev) := by
  refine ⟨rfl, by simp, by simp, ?_, ?_⟩
  · exact C6_no_validation.2.2.2.2 (String × ℚ) [("k", (0 : ℚ))] [(0 : ℚ)] 0 rfl (by simp)
      (by simp)
  · exact C6_no_validation.2.2.1 init 0 0 0 rfl

/-- C7: the clearing phase applies exactly the 3 predefined relief events, with
their fixed names and fixed negative intensities, in their fixed order; each is
recorded in the log and each is displayed; starting from `current_state = 1.0`
(= baseline), the net displacement they contribute is `-(0.18 + 0.32 + 0.45)`
and the final state is strictly below the baseline. -/
theorem C7_clearing_fixed_events :
    (∀ (s : SimState) (t1 t2 t3 : Nat),
      (experience_clearing s t1 t2 t3).1.shocks = s.shocks ++ [⟨t1, "relief", "🌤️ Emerging Light", -0.18, 1, s.current_state, s.current_state + -0.18, false⟩, ⟨t2, "relief", "☀️ Warming Rays", -0.32, 1, s.current_state + -0.18, s.current_state + -0.18 + -0.32, false⟩, ⟨t3, "relief", "🌈 Rainbow Serenity", -0.45, 1, s.current_state + -0.18 + -0.32, s.current_state + -0.18 + -0.32 + -0.45, false⟩] ∧
      (experience_clearing s t1 t2 t3).2 = reliefs.map reliefEvent) ∧
    reliefs = [("🌤️ Emerging Light", -0.18), ("☀️ Warming Rays", -0.32), ("🌈 Rainbow Serenity", -0.45)] ∧
    ((experience_clearing init 0 0 0).1.shock_accumulation = -(0.18 + 0.32 + 0.45) ∧
     (experience_clearing init 0 0 0).1.current_state < init.baseline_state) := by
  refine ⟨?_, rfl, ?_, ?_⟩
  · intro s t1 t2 t3
    rw [experience_clearing_fst]
    exact ⟨rfl, experience_clearing_snd s t1 t2 t3⟩
  · rw [experience_clearing_fst]
    norm_num [init]
  · rw [experience_clearing_fst]
    norm_num [init]

/-- C8: every sampled event's intensity is a uniform draw from the chosen
category's range multiplied by the chaos factor; for mist the factor is
`1 + uniform(-mist_unpredictability, +mist_unpredictability)` (a symmetric
interval), for shocks it is
`1 + uniform(-unpredictability, +unpredictability * 1.5)` (the upward endpoint
is exactly 1.5 times the downward bound). -/
theorem C8_chaos_factor :
    (∀ (s : SimState) (r t u : ℚ) (ev : Event), generate_mist s r t u = .ok ev →
      ev.chaos = 1 + uniform (-s.mist_unpredictability) s.mist_unpredictability u ∧
      ∃ kv, kv ∈ s.mist_types ∧
        ev.intensity = uniform kv.2.intensity_range.1 kv.2.intensity_range.2 t * ev.chaos) ∧
    (∀ (s : SimState) (r t u : ℚ) (ev : Event) (s' : SimState),
      generate_shock s r t u = .ok (ev, s') →
      ev.chaos = 1 + uniform (-s.unpredictability) (s.unpredictability * 1.5) u ∧
      ∃ kv, kv ∈ s.shock_types ∧
        ev.intensity = uniform kv.2.intensity_range.1 kv.2.intensity_range.2 t * ev.chaos) ∧
    (∀ c : ℚ, uniform (-c) c 0 = -c ∧ uniform (-c) c 1 = c ∧
      uniform (-c) (c * 1.5) 0 = -c ∧ uniform (-c) (c * 1.5) 1 = 1.5 * c) ∧
    (∀ c v : ℚ, 0 ≤ c → 0 ≤ v → v ≤ 1 →
      (-c ≤ uniform (-c) c v ∧ uniform (-c) c v ≤ c) ∧
      (-c ≤ uniform (-c) (c * 1.5) v ∧ uniform (-c) (c * 1.5) v ≤ 1.5 * c)) := by
  refine ⟨?_, ?_, ?_, ?_⟩
  · intro s r t u ev h
    obtain ⟨kv, hkv, hevdef⟩ := generate_mist_ok_elim h
    subst hevdef
    exact ⟨rfl, kv, hkv, rfl⟩
  · intro s r t u ev s' h
    obtain ⟨kv, hkv, hevdef, -⟩ := generate_shock_ok_elim h
    subst hevdef
    exact ⟨rfl, kv, shockAvailable_subset hkv, rfl⟩
  · intro c
    refine ⟨?_, ?_, ?_, ?_⟩ <;> (unfold uniform; ring)
  · intro c v h0 h1 h2
    unfold uniform
    refine ⟨⟨?_, ?_⟩, ?_, ?_⟩ <;> nlinarith

/-- Witness for C8: a concrete `generate_mist` call from `__init__` with all
draws at 0 produces the `soft_veil` event with chaos factor `0.85 = 1 - 0.15`,
and the shock chaos interval endpoints at `c = 0.5` are `-0.5` and
`0.75 = 1.5 * 0.5`. -/
theorem C8_chaos_factor_witness :
    generate_mist init 0 0 0 = .ok { type := "soft_veil", name := "soft veil", intensity := 0.00085, chaos := 0.85 } ∧
    ({ type := "soft_veil", name := "soft veil", intensity := 0.00085, chaos := 0.85 } : Event).chaos = 1 + uniform (-init.mist_unpredictability) init.mist_unpredictability 0 ∧
    ((0 : ℚ) ≤ 0.5 ∧ (0 : ℚ) ≤ 1 ∧ (1 : ℚ) ≤ 1) ∧
    (-(0.5 : ℚ) ≤ uniform (-(0.5 : ℚ)) ((0.5 : ℚ) * 1.5) 1 ∧
     uniform (-(0.5 : ℚ)) ((0.5 : ℚ) * 1.5) 1 ≤ 1.5 * (0.5 : ℚ)) := by
  have h : generate_mist init 0 0 0 = .ok { type := "soft_veil", name := "soft veil", intensity := 0.00085, chaos := 0.85 } := by
    norm_num [generate_mist, choices, init, cumWeights, bisect_right, countLe, uniform,
      Except.map, List.take]
  refine ⟨h, (C8_chaos_factor.1 init 0 0 0 _ h).1, ⟨by norm_num, by norm_num, le_refl _⟩, ?_⟩
  exact (C8_chaos_factor.2.2.2 0.5 1 (by norm_num) (by norm_num) (le_refl _)).2

/-- C9: every sampled event is applied and logged unconditionally, with display
decided separately: the state (and log) produced by a mist iteration does not
depend on the display draw, each mist iteration appends exactly one log entry
and displays iff the draw is below 0.3, and each storm iteration appends
exactly one log entry with display gated exactly by `apply_event`'s
threshold-check return value. -/
theorem C9_unconditional_logging :
    (∀ (s : SimState) (n : Nat) (r t u d dd : ℚ) (now : Nat),
      Except.map Prod.fst (stepMist s n r t u d now) =
      Except.map Prod.fst (stepMist s n r t u dd now)) ∧
    (∀ (s : SimState) (n : Nat) (r t u d : ℚ) (now : Nat) (s1 : SimState) (disp : Bool),
      stepMist s n r t u d now = .ok (s1, disp) →
      (∃ e, s1.shocks = s.shocks ++ [e]) ∧ disp = (if d < 0.3 then true else false)) ∧
    (∀ (s : SimState) (n : Nat) (r t u : ℚ) (now : Nat) (s1 : SimState) (disp : Bool),
      stepStorm s n r t u now = .ok (s1, disp) →
      ∃ e, s1.shocks = s.shocks ++ [e] ∧
        disp = (if s.shock_threshold ≤ |e.intensity| then true else false)) := by
  refine ⟨?_, ?_, ?_⟩
  · intro s n r t u d dd now
    cases hgm : generate_mist (decaySteps s n true) r t u <;>
      simp [stepMist, hgm, Except.map]
  · intro s n r t u d now s1 disp h
    have hfr := decaySteps_eqExceptCurrent n s true
    simp only [stepMist] at h
    cases hgm : generate_mist (decaySteps s n true) r t u with
    | error e =>
      rw [hgm] at h
      exact absurd h (by simp [Except.map])
    | ok m =>
      rw [hgm] at h
      simp only [Except.map, Except.ok.injEq, Prod.mk.injEq] at h
      obtain ⟨h1, h2⟩ := h
      refine ⟨⟨{ timestamp := now, type := m.type, name := m.name, intensity := m.intensity, chaos_factor := m.chaos, state_before := (decaySteps s n true).current_state, state_after := (decaySteps s n true).current_state + m.intensity, is_mist := true }, ?_⟩, h2.symm⟩
      rw [← h1]
      simp [apply_event, hfr.shocks_eq]
  · intro s n r t u now s1 disp h
    have hfr := decaySteps_eqExceptCurrent n s false
    simp only [stepStorm] at h
    cases hgs : generate_shock (decaySteps s n false) r t u with
    | error e =>
      rw [hgs] at h
      exact absurd h (by simp [Except.map])
    | ok es =>
      obtain ⟨ev, s2⟩ := es
      obtain ⟨kv, hkv, hevdef, hs2⟩ := generate_shock_ok_elim hgs
      have hth2 : s2.shock_threshold = s.shock_threshold := by
        rw [hs2]
        have := hfr.shock_threshold_eq
        split <;> exact this
      have hcur2 : s2.current_state = (decaySteps s n false).current_state := by
        rw [hs2]
        split <;> rfl
      have hshk2 : s2.shocks = s.shocks := by
        rw [hs2]
        have := hfr.shocks_eq
        split <;> exact this
      rw [hgs] at h
      simp only [Except.map, Except.ok.injEq] at h
      have h1 := congrArg Prod.fst h
      have h2 := congrArg Prod.snd h
      simp only at h1 h2
      refine ⟨{ timestamp := now, type := ev.type, name := ev.name, intensity := ev.intensity, chaos_factor := ev.chaos, state_before := s2.current_state, state_after := s2.current_state + ev.intensity, is_mist := false }, ?_, ?_⟩
      · rw [← h1]
        simp [apply_event, hshk2]
      · rw [← h2]
        simp only [apply_event_snd]
        simp [hth2]

/-- Witness for C9: a concrete mist iteration from `__init__` (all draws 0)
appends exactly one entry to the empty log and reports the event as displayed,
since the display draw 0 is below 0.3. -/
theorem C9_unconditional_logging_witness :
    stepMist init 0 0 0 0 0 0 = .ok ({ init with total_mist := 1, current_state := 1.00085, shock_accumulation := 0.00085, shocks := [{ timestamp := 0, type := "soft_veil", name := "soft veil", intensity := 0.00085, chaos_factor := 0.85, state_before := 1, state_after := 1.00085, is_mist := true }] }, true) ∧
    (∃ e, ({ init with total_mist := 1, current_state := 1.00085, shock_accumulation := 0.00085, shocks := [{ timestamp := 0, type := "soft_veil", name := "soft veil", intensity := 0.00085, chaos_factor := 0.85, state_before := 1, state_after := 1.00085, is_mist := true }] } : SimState).shocks = init.shocks ++ [e]) ∧
    (true : Bool) = (if (0 : ℚ) < 0.3 then true else false) := by
  have h : stepMist init 0 0 0 0 0 0 = .ok ({ init with total_mist := 1, current_state := 1.00085, shock_accumulation := 0.00085, shocks := [{ timestamp := 0, type := "soft_veil", name := "soft veil", intensity := 0.00085, chaos_factor := 0.85, state_before := 1, state_after := 1.00085, is_mist := true }] }, true) := by
    norm_num [stepMist, decaySteps, generate_mist, apply_event, choices, init, cumWeights,
      bisect_right, countLe, uniform, Except.map, List.take]
  have hc := C9_unconditional_logging.2.1 init 0 0 0 0 0 0 _ true h
  exact ⟨h, hc.1, hc.2⟩

/-- C10: every `apply_event` call appends exactly one entry to the log and
leaves the existing entries untouched and in order (the old log is the prefix
of the new one); after a full cycle the log length equals
`total_mist + total_drops + 3` (the three relief events), and the per-phase
counters count exactly the events sampled in their phase. -/
theorem C10_log_append_counts :
    (∀ (s : SimState) (ev : Event) (m : Bool) (now : Nat),
      (apply_event s ev m now).1.shocks.length = s.shocks.length + 1 ∧
      (apply_event s ev m now).1.shocks.take s.shocks.length = s.shocks) ∧
    (∀ (mistIns : List MistIn) (stormIns : List StormIn) (t1 t2 t3 : Nat) (s' : SimState),
      experience_full_cycle init mistIns stormIns t1 t2 t3 = .ok s' →
      s'.total_mist = mistIns.length ∧ s'.total_drops = stormIns.length ∧
      s'.shocks.length = s'.total_mist + s'.total_drops + 3) := by
  constructor
  · intro s ev m now
    constructor
    · simp [apply_event]
    · simp only [apply_event]
      exact List.take_left s.shocks _
  · intro mistIns stormIns t1 t2 t3 s' h
    have hp := experience_full_cycle_props mistIns stormIns t1 t2 t3 h
    exact ⟨hp.1, hp.2.1, hp.2.2.1⟩

/-- Witness for C10: the concrete full cycle with no mist and no storm
iterations ends with an event log of exactly the 3 relief entries and zero
phase counters. -/
theorem C10_log_append_counts_witness :
    experience_full_cycle init [] [] 0 0 0 = .ok (experience_clearing init 0 0 0).1 ∧
    (experience_clearing init 0 0 0).1.total_mist = ([] : List MistIn).length ∧
    (experience_clearing init 0 0 0).1.total_drops = ([] : List StormIn).length ∧
    (experience_clearing init 0 0 0).1.shocks.length =
      (experience_clearing init 0 0 0).1.total_mist +
        (experience_clearing init 0 0 0).1.total_drops + 3 := by
  have hfc : experience_full_cycle init [] [] 0 0 0 = .ok (experience_clearing init 0 0 0).1 :=
    rfl
  have hc := C10_log_append_counts.2 [] [] 0 0 0 _ hfc
  exact ⟨hfc, hc.1, hc.2.1, hc.2.2⟩
